import Mathlib

/-!
Verification of the Arrow Flight SQL client adapter.

This development shallowly embeds the client's core layers:
* the varint codec (`varIntSize`, `writeVarIntBytes`, `readVarInt`),
* the protobuf-`Any` envelope codec (`packAny`, `unpackAny`),
* the command-descriptor builder (`createCommandDescriptor`),
* input validation (`validateQuery`, `validateHandle`, `validateTransactionId`,
  `validateParameterData`),
* the operation orchestrator (the `FlightSqlClient.*` facade operations), and
* the result-materialisation helpers (`flightInfoToTable`, `ticketToTable`).

Buffers are byte lists (`List Nat`, each entry in `[0, 255]`).  JavaScript's
bitwise operators work on 32-bit two's-complement integers; the helpers
`toUint32`, `toInt32`, `jsOr32` and `jsShl32` reproduce that semantics exactly,
which matters for the varint reader.  The facade operations are modelled as
functions over an explicit transport capability record together with the list
of transport calls they perform, so that "raises without touching the
transport" is expressible.
-/

/-! ## JavaScript 32-bit integer semantics -/

/-- `ToUint32` of an integer: the representative of `n` modulo `2^32`. -/
def toUint32 (n : Int) : Nat := (n % (2 ^ 32 : Int)).toNat

/-- `ToInt32` of an integer: `n` modulo `2^32`, interpreted as a signed
32-bit two's-complement value. -/
def toInt32 (n : Int) : Int :=
  if toUint32 n < 2 ^ 31 then (toUint32 n : Int) else (toUint32 n : Int) - 2 ^ 32

/-- JavaScript `a | b`: both operands are converted to 32 bits, or-ed, and the
result is read back as a signed 32-bit value. -/
def jsOr32 (a b : Int) : Int := toInt32 ((toUint32 a ||| toUint32 b : Nat) : Int)

/-- JavaScript `a << s`: the operand is converted to 32 bits, shifted by
`s mod 32`, truncated to 32 bits and read back as a signed 32-bit value. -/
def jsShl32 (a : Int) (s : Nat) : Int :=
  toInt32 ((toUint32 a <<< (s % 32) : Nat) : Int)

/-! ## Varint codec (client.ts `varIntSize`, `writeVarInt`, `readVarInt`)

`varIntSize` and `writeVarInt` loop with `value >>>= 7`; on the unsigned
values in range `[0, 2^32)` used here, `value & 0x7f` is the low 7 bits and
`>>> 7` is division by `2^7`, so both are modelled directly on `Nat`.
`writeVarInt` writes into a fresh zero buffer starting at offset 0 and fills
it exactly, so it is modelled as the list of bytes produced. -/

/-- client.ts `varIntSize`: number of bytes of the varint encoding. -/
def varIntSize (value : Nat) : Nat :=
  if _h : 0x80 ≤ value then varIntSize (value >>> 7) + 1 else 1
termination_by value
decreasing_by
  simp only [Nat.shiftRight_eq_div_pow]
  exact Nat.div_lt_self (by omega) (by norm_num)

/-- client.ts `writeVarInt` on a fresh buffer at offset 0: the bytes written.
Each byte is `(value & 0x7f) | 0x80` while `value >= 0x80`, then `value`. -/
def writeVarIntBytes (value : Nat) : List Nat :=
  if _h : 0x80 ≤ value then ((value &&& 0x7f) ||| 0x80) :: writeVarIntBytes (value >>> 7)
  else [value]
termination_by value
decreasing_by
  simp only [Nat.shiftRight_eq_div_pow]
  exact Nat.div_lt_self (by omega) (by norm_num)

/-- Result record of client.ts `readVarInt`. -/
structure VarIntRead where
  value : Int
  bytesRead : Nat
deriving Repr, DecidableEq

/-- The loop of client.ts `readVarInt` over the bytes from the current offset:
`value |= (byte & 0x7f) << shift` with JavaScript 32-bit semantics, stopping
at the first byte with the continuation bit clear or at the buffer end. -/
def readVarIntAux : List Nat → Nat → Int → Nat → VarIntRead
  | [], _, value, bytesRead => ⟨value, bytesRead⟩
  | b :: rest, shift, value, bytesRead =>
    let value := jsOr32 value (jsShl32 ((b &&& 0x7f : Nat) : Int) shift)
    let bytesRead := bytesRead + 1
    if b &&& 0x80 = 0 then ⟨value, bytesRead⟩
    else readVarIntAux rest (shift + 7) value bytesRead

/-- client.ts `readVarInt`. -/
def readVarInt (buffer : List Nat) (offset : Nat) : VarIntRead :=
  readVarIntAux (buffer.drop offset) 0 0 0

/-! ## Envelope codec (client.ts `packAny`, `unpackAny`) -/

/-- client.ts `packAny`: field 1 (tag `0x0a`) is the length-prefixed type-URL
bytes, field 2 (tag `0x12`) is the length-prefixed payload.  The source
allocates a buffer of the exact total size and fills it sequentially, which
is the concatenation below.  The type URL is passed as its UTF-8 bytes. -/
def packAny (typeUrl : List Nat) (data : List Nat) : List Nat :=
  (0x0a :: writeVarIntBytes typeUrl.length) ++ typeUrl ++
    (0x12 :: writeVarIntBytes data.length) ++ data

/-- The scan loop of client.ts `unpackAny`.  The buffer offset is represented
structurally: the remaining bytes are the suffix of the buffer from the
current offset, and `offset += n` is `List.drop n`; `subarray(offset,
offset + length)` is `take length` of the remainder.  The fuel argument
(initialised to the buffer length) bounds the number of loop iterations; the
loop consumes at least the tag byte per iteration, so a full buffer length of
fuel is never exhausted on the forward-moving scans that occur here. -/
def unpackAnyAux : Nat → List Nat → List Nat → List Nat
  | 0, _, valueBytes => valueBytes
  | _ + 1, [], valueBytes => valueBytes
  | fuel + 1, tag :: rest, valueBytes =>
    let fieldNumber := tag >>> 3
    let wireType := tag &&& 0x07
    if wireType ≠ 2 then
      -- skip non-length-delimited fields (only the tag byte is consumed)
      unpackAnyAux fuel rest valueBytes
    else
      let r := readVarInt rest 0
      let after := rest.drop r.bytesRead
      let valueBytes := if fieldNumber = 2 then after.take r.value.toNat else valueBytes
      unpackAnyAux fuel (after.drop r.value.toNat) valueBytes

/-- client.ts `unpackAny`: scans the top-level fields and returns the content
of the last field numbered 2, defaulting to the empty byte string. -/
def unpackAny (buffer : List Nat) : List Nat :=
  unpackAnyAux buffer.length buffer []

/-! ## Command descriptor builder (client.ts `createCommandDescriptor`) -/

/-- UTF-8 bytes of a string; the strings appearing here are ASCII, for which
the UTF-8 bytes are the character code points. -/
def strBytes (s : String) : List Nat := s.data.map Char.toNat

/-- client.ts `TYPE_URL_PREFIX`. -/
def TYPE_URL_PREFIX : String := "type.googleapis.com/arrow.flight.protocol.sql"

/-- client.ts action type constants. -/
def ACTION_CREATE_PREPARED_STATEMENT : String := "CreatePreparedStatement"

/-- client.ts action type constant for closing a prepared statement. -/
def ACTION_CLOSE_PREPARED_STATEMENT : String := "ClosePreparedStatement"

/-- client.ts action type constant for beginning a transaction. -/
def ACTION_BEGIN_TRANSACTION : String := "BeginTransaction"

/-- client.ts action type constant for ending a transaction. -/
def ACTION_END_TRANSACTION : String := "EndTransaction"

/-- Addressing mode of a transport descriptor. -/
inductive DescriptorMode where
  | cmd
  | path
deriving Repr, DecidableEq

/-- Modelled from the spec: the transport's descriptor, "a transport-level
addressing unit carrying the serialized Envelope as its opaque command bytes";
the `cmdDescriptor` constructor of the external base client wraps bytes in
the "command" addressing mode (as opposed to "path" addressing). -/
structure CmdDescriptor where
  mode : DescriptorMode
  cmd : List Nat
deriving Repr, DecidableEq

/-- Modelled from the spec: the base client's `cmdDescriptor` helper. -/
def cmdDescriptor (cmd : List Nat) : CmdDescriptor := ⟨DescriptorMode.cmd, cmd⟩

/-- client.ts `createCommandDescriptor`: joins the fixed authority prefix and
the type name with `.`, packs the envelope and wraps it as a command
descriptor. -/
def createCommandDescriptor (typeName : String) (encodedCommand : List Nat) : CmdDescriptor :=
  cmdDescriptor (packAny (strBytes ( TYPE_URL_PREFIX ++ "." ++ typeName)) encodedCommand)

/-! ## Errors and validation (errors.ts) -/

/-- errors.ts `FlightSqlErrorCode`. -/
inductive FlightSqlErrorCode where
  | INVALID_QUERY
  | INVALID_HANDLE
  | INVALID_PARAMETER
  | TRANSACTION_ERROR
  | RESULT_ERROR
  | SCHEMA_ERROR
deriving Repr, DecidableEq

/-- errors.ts `FlightSqlError`: message, SQL-specific code, and the underlying
Flight error code (defaulting to `"INVALID_ARGUMENT"` when the constructor is
called without options). -/
structure FlightSqlError where
  message : String
  sqlCode : FlightSqlErrorCode
  flightCode : String
deriving Repr, DecidableEq

/-- JavaScript `String.prototype.trim` whitespace (the characters relevant to
the queries considered here). -/
def jsWhitespace (c : Char) : Bool :=
  c == ' ' || c == '\t' || c == '\n' || c == '\r'

/-- JavaScript `query.trim()`: strips leading and trailing whitespace. -/
def jsTrim (s : String) : String :=
  String.mk (((s.data.dropWhile jsWhitespace).reverse.dropWhile jsWhitespace).reverse)

/-- errors.ts `validateQuery`: `if (!query || query.trim().length === 0)`
raise `"query cannot be empty"` with code `INVALID_QUERY`. -/
def validateQuery (query : String) : Except FlightSqlError Unit :=
  if query = "" ∨ (jsTrim query).length = 0 then
    .error ⟨"query cannot be empty", .INVALID_QUERY, "INVALID_ARGUMENT"⟩
  else .ok ()

/-- errors.ts `validateHandle`. -/
def validateHandle (handle : List Nat) (name : String) : Except FlightSqlError Unit :=
  if handle.length = 0 then
    .error ⟨name ++ " cannot be empty", .INVALID_HANDLE, "INVALID_ARGUMENT"⟩
  else .ok ()

/-- errors.ts `validateTransactionId`. -/
def validateTransactionId (transactionId : List Nat) : Except FlightSqlError Unit :=
  if transactionId.length = 0 then
    .error ⟨"transaction ID cannot be empty", .TRANSACTION_ERROR, "FAILED_PRECONDITION"⟩
  else .ok ()

/-- client.ts `ParameterData`: Arrow IPC schema and record-batch bytes. -/
structure ParameterData where
  schema : List Nat
  data : List Nat
deriving Repr, DecidableEq

/-- errors.ts `validateParameterData`. -/
def validateParameterData (params : ParameterData) : Except FlightSqlError Unit :=
  if params.schema.length = 0 then
    .error ⟨"parameter schema is required", .INVALID_PARAMETER, "INVALID_ARGUMENT"⟩
  else if params.data.length = 0 then
    .error ⟨"parameter data is required", .INVALID_PARAMETER, "INVALID_ARGUMENT"⟩
  else .ok ()

/-! ## Domain message codecs

The generated fixed-schema protobuf codecs
(`src/generated/arrow/flight/protocol/sql/FlightSql.js`) are not part of the
sources; spec §2 item 4 describes them as "generated/standard" structured
encode/decode with standard field-presence rules.  They are modelled here as
standard proto3 wire-format codecs over byte lists. -/

/-- Modelled from the spec: the standard protobuf varint reader used by the
generated codecs (arbitrary-precision, unlike the hand-rolled 32-bit
`readVarInt`); returns the value and the number of bytes consumed. -/
def protoReadVarintAux : List Nat → Nat → Nat → Nat → Nat × Nat
  | [], _, value, n => (value, n)
  | b :: rest, shift, value, n =>
    let value := value + (b &&& 0x7f) * 2 ^ shift
    if b &&& 0x80 = 0 then (value, n + 1)
    else protoReadVarintAux rest (shift + 7) value (n + 1)

/-- Modelled from the spec: a length-delimited proto3 field (wire type 2). -/
def protoLenField (fieldNumber : Nat) (bytes : List Nat) : List Nat :=
  (fieldNumber * 8 + 2) :: (writeVarIntBytes bytes.length ++ bytes)

/-- Modelled from the spec: a varint proto3 field (wire type 0). -/
def protoVarintField (fieldNumber : Nat) (value : Nat) : List Nat :=
  (fieldNumber * 8 + 0) :: writeVarIntBytes value

/-- Modelled from the spec: an optional length-delimited proto3 field. -/
def protoOptLenField (fieldNumber : Nat) : Option (List Nat) → List Nat
  | none => []
  | some bytes => protoLenField fieldNumber bytes

/-- Modelled from the spec: proto3 encoding of a string field, omitted when
empty (proto3 default-value elision). -/
def protoStringField (fieldNumber : Nat) (s : String) : List Nat :=
  if (strBytes s).length = 0 then [] else protoLenField fieldNumber (strBytes s)

/-- Signed 64-bit interpretation of a protobuf varint value. -/
def int64OfNat (v : Nat) : Int :=
  if v % 2 ^ 64 < 2 ^ 63 then ((v % 2 ^ 64 : Nat) : Int)
  else ((v % 2 ^ 64 : Nat) : Int) - 2 ^ 64

/-- `CommandStatementQuery`: SQL text plus optional transaction id. -/
structure CommandStatementQuery where
  query : String
  transactionId : Option (List Nat)
deriving Repr, DecidableEq

/-- Modelled from the spec: generated proto3 encoder for
`CommandStatementQuery` (`string query = 1`, `optional bytes transaction_id = 2`). -/
def CommandStatementQuery.encode (m : CommandStatementQuery) : List Nat :=
  protoStringField 1 m.query ++ protoOptLenField 2 m.transactionId

/-- `CommandStatementUpdate`: SQL text plus optional transaction id. -/
structure CommandStatementUpdate where
  query : String
  transactionId : Option (List Nat)
deriving Repr, DecidableEq

/-- Modelled from the spec: generated proto3 encoder for
`CommandStatementUpdate`. -/
def CommandStatementUpdate.encode (m : CommandStatementUpdate) : List Nat :=
  protoStringField 1 m.query ++ protoOptLenField 2 m.transactionId

/-- `CommandPreparedStatementQuery`: a prepared-statement handle. -/
structure CommandPreparedStatementQuery where
  preparedStatementHandle : List Nat
deriving Repr, DecidableEq

/-- Modelled from the spec: generated proto3 encoder for
`CommandPreparedStatementQuery` (`bytes prepared_statement_handle = 1`). -/
def CommandPreparedStatementQuery.encode (m : CommandPreparedStatementQuery) : List Nat :=
  if m.preparedStatementHandle.length = 0 then []
  else protoLenField 1 m.preparedStatementHandle

/-- `CommandPreparedStatementUpdate`: a prepared-statement handle. -/
structure CommandPreparedStatementUpdate where
  preparedStatementHandle : List Nat
deriving Repr, DecidableEq

/-- Modelled from the spec: generated proto3 encoder for
`CommandPreparedStatementUpdate`. -/
def CommandPreparedStatementUpdate.encode (m : CommandPreparedStatementUpdate) : List Nat :=
  if m.preparedStatementHandle.length = 0 then []
  else protoLenField 1 m.preparedStatementHandle

/-- `ActionCreatePreparedStatementRequest`: SQL text plus optional
transaction id. -/
structure ActionCreatePreparedStatementRequest where
  query : String
  transactionId : Option (List Nat)
deriving Repr, DecidableEq

/-- Modelled from the spec: generated proto3 encoder for
`ActionCreatePreparedStatementRequest`. -/
def ActionCreatePreparedStatementRequest.encode
    (m : ActionCreatePreparedStatementRequest) : List Nat :=
  protoStringField 1 m.query ++ protoOptLenField 2 m.transactionId

/-- `ActionClosePreparedStatementRequest`: the handle to close. -/
structure ActionClosePreparedStatementRequest where
  preparedStatementHandle : List Nat
deriving Repr, DecidableEq

/-- Modelled from the spec: generated proto3 encoder for
`ActionClosePreparedStatementRequest`. -/
def ActionClosePreparedStatementRequest.encode
    (m : ActionClosePreparedStatementRequest) : List Nat :=
  if m.preparedStatementHandle.length = 0 then []
  else protoLenField 1 m.preparedStatementHandle

/-- `ActionEndTransactionRequest`: the transaction id and the numeric
end-transaction action code (commit = 1, rollback = 2). -/
structure ActionEndTransactionRequest where
  transactionId : List Nat
  action : Nat
deriving Repr, DecidableEq

/-- Modelled from the spec: generated proto3 encoder for
`ActionEndTransactionRequest` (`bytes transaction_id = 1`, enum `action = 2`). -/
def ActionEndTransactionRequest.encode (m : ActionEndTransactionRequest) : List Nat :=
  (if m.transactionId.length = 0 then [] else protoLenField 1 m.transactionId) ++
    (if m.action = 0 then [] else protoVarintField 2 m.action)

/-- `DoPutUpdateResult`: the affected-record count (`-1` = unknown). -/
structure DoPutUpdateResult where
  recordCount : Int
deriving Repr, DecidableEq

/-- Modelled from the spec: the scan loop of the generated proto3 decoder for
`DoPutUpdateResult` (`int64 record_count = 1`): varint fields are read (field
1 into the record count), length-delimited fields are skipped by their
declared length. -/
def DoPutUpdateResult.decodeAux : Nat → List Nat → Int → Int
  | 0, _, acc => acc
  | _ + 1, [], acc => acc
  | fuel + 1, tag :: rest, acc =>
    let wireType := tag &&& 0x07
    if wireType = 0 then
      let r := protoReadVarintAux rest 0 0 0
      let acc := if tag >>> 3 = 1 then int64OfNat r.1 else acc
      DoPutUpdateResult.decodeAux fuel (rest.drop r.2) acc
    else if wireType = 2 then
      let r := protoReadVarintAux rest 0 0 0
      DoPutUpdateResult.decodeAux fuel ((rest.drop r.2).drop r.1) acc
    else acc

/-- Modelled from the spec: generated proto3 decoder for `DoPutUpdateResult`. -/
def DoPutUpdateResult.decode (bytes : List Nat) : DoPutUpdateResult :=
  ⟨DoPutUpdateResult.decodeAux bytes.length bytes 0⟩

/-- `DoPutPreparedStatementResult`: the optional updated handle.  Spec §3:
"absence must be distinguished from an explicit empty value", hence the
`Option`; an explicitly present zero-length handle decodes to `some []`. -/
structure DoPutPreparedStatementResult where
  preparedStatementHandle : Option (List Nat)
deriving Repr, DecidableEq

/-- Modelled from the spec: the scan loop of the generated proto3 decoder for
`DoPutPreparedStatementResult` (`optional bytes prepared_statement_handle = 1`):
the field is populated exactly when its tag occurs on the wire. -/
def DoPutPreparedStatementResult.decodeAux :
    Nat → List Nat → Option (List Nat) → Option (List Nat)
  | 0, _, acc => acc
  | _ + 1, [], acc => acc
  | fuel + 1, tag :: rest, acc =>
    let wireType := tag &&& 0x07
    if wireType = 2 then
      let r := protoReadVarintAux rest 0 0 0
      let after := rest.drop r.2
      let acc := if tag >>> 3 = 1 then some (after.take r.1) else acc
      DoPutPreparedStatementResult.decodeAux fuel (after.drop r.1) acc
    else if wireType = 0 then
      let r := protoReadVarintAux rest 0 0 0
      DoPutPreparedStatementResult.decodeAux fuel (rest.drop r.2) acc
    else acc

/-- Modelled from the spec: generated proto3 decoder for
`DoPutPreparedStatementResult`. -/
def DoPutPreparedStatementResult.decode (bytes : List Nat) : DoPutPreparedStatementResult :=
  ⟨DoPutPreparedStatementResult.decodeAux bytes.length bytes none⟩

/-- `ActionCreatePreparedStatementResult`: handle and the two raw schemas. -/
structure ActionCreatePreparedStatementResult where
  preparedStatementHandle : List Nat
  datasetSchema : List Nat
  parameterSchema : List Nat
deriving Repr, DecidableEq

/-- Modelled from the spec: the scan loop of the generated proto3 decoder for
`ActionCreatePreparedStatementResult` (`bytes prepared_statement_handle = 1`,
`bytes dataset_schema = 2`, `bytes parameter_schema = 3`; unset fields default
to the empty byte string). -/
def ActionCreatePreparedStatementResult.decodeAux :
    Nat → List Nat → ActionCreatePreparedStatementResult →
    ActionCreatePreparedStatementResult
  | 0, _, acc => acc
  | _ + 1, [], acc => acc
  | fuel + 1, tag :: rest, acc =>
    let wireType := tag &&& 0x07
    if wireType = 2 then
      let r := protoReadVarintAux rest 0 0 0
      let after := rest.drop r.2
      let content := after.take r.1
      let acc :=
        if tag >>> 3 = 1 then { acc with preparedStatementHandle := content }
        else if tag >>> 3 = 2 then { acc with datasetSchema := content }
        else if tag >>> 3 = 3 then { acc with parameterSchema := content }
        else acc
      ActionCreatePreparedStatementResult.decodeAux fuel (after.drop r.1) acc
    else if wireType = 0 then
      let r := protoReadVarintAux rest 0 0 0
      ActionCreatePreparedStatementResult.decodeAux fuel (rest.drop r.2) acc
    else acc

/-- Modelled from the spec: generated proto3 decoder for
`ActionCreatePreparedStatementResult`. -/
def ActionCreatePreparedStatementResult.decode
    (bytes : List Nat) : ActionCreatePreparedStatementResult :=
  ActionCreatePreparedStatementResult.decodeAux bytes.length bytes ⟨[], [], []⟩

/-! ## Transport model and the operation orchestrator (client.ts facade)

Spec §9 sanctions modelling the facade as "a domain-operations module holding
a reference to a transport-capability interface".  A `Transport` is the mocked
external base client: it maps each request to the response items the server
sends back.  Each facade operation returns its result together with the list
of transport calls it performed, in order, so that "validation failure raises
immediately without touching the transport" is a statement about the empty
call list. -/

/-- A descriptor message as written on a `doPut` stream
(`{ type: 2 /\x2a CMD \x2a/, path: [], cmd }`). -/
structure PutDescriptor where
  type : Nat
  path : List (List Nat)
  cmd : List Nat
deriving Repr, DecidableEq

/-- A `FlightData` message: descriptor, header, app metadata and body. -/
structure FlightData where
  flightDescriptor : Option PutDescriptor
  dataHeader : List Nat
  appMetadata : List Nat
  dataBody : List Nat
deriving Repr, DecidableEq

/-- One item of the response collected from a `doPut` stream. -/
structure DoPutResult where
  appMetadata : List Nat
deriving Repr, DecidableEq

/-- A transport action: type name and packed body. -/
structure FlightAction where
  type : String
  body : List Nat
deriving Repr, DecidableEq

/-- One result item yielded by `doAction`. -/
structure ActionResult where
  body : List Nat
deriving Repr, DecidableEq

/-- A retrieval ticket. -/
structure Ticket where
  ticket : List Nat
deriving Repr, DecidableEq

/-- An endpoint of a response descriptor, optionally carrying a ticket. -/
structure Endpoint where
  ticket : Option Ticket
deriving Repr, DecidableEq

/-- The response descriptor (`FlightInfo`) returned by `getFlightInfo`. -/
structure FlightInfo where
  endpoint : List Endpoint
deriving Repr, DecidableEq

/-- Modelled from the spec: the external transport collaborator (§6), as a
deterministic response oracle used to mock the base client.  `doPut` maps the
single message written on a write stream to the collected response items. -/
structure Transport where
  getFlightInfo : CmdDescriptor → FlightInfo
  doPut : FlightData → List DoPutResult
  doAction : FlightAction → List ActionResult
  doGet : Ticket → List FlightData

/-- A transport call performed by a facade operation. -/
inductive TransportCall where
  | getFlightInfo (descriptor : CmdDescriptor)
  | doPut (message : FlightData)
  | doAction (action : FlightAction)
  | doGet (ticket : Ticket)
deriving Repr, DecidableEq

/-- client.ts `UpdateResult`. -/
structure UpdateResult where
  recordCount : Int
deriving Repr, DecidableEq

/-- client.ts `PreparedStatementResult`. -/
structure PreparedStatementResult where
  handle : List Nat
  datasetSchema : List Nat
  parameterSchema : List Nat
deriving Repr, DecidableEq

/-- client.ts `BindParametersResult`: `handle?` is `none` when the update
result carried no handle (`undefined` in the source). -/
structure BindParametersResult where
  handle : Option (List Nat)
deriving Repr, DecidableEq

/-- client.ts `TransactionAction`. -/
inductive TransactionAction where
  | commit
  | rollback
deriving Repr, DecidableEq

/-- client.ts `FlightSqlClient.query`: validate, encode
`CommandStatementQuery`, build the command descriptor and issue one
`getFlightInfo` call. -/
def FlightSqlClient.query (t : Transport) (query : String)
    (transactionId : Option (List Nat)) :
    Except FlightSqlError FlightInfo × List TransportCall :=
  match validateQuery query with
  | .error e => (.error e, [])
  | .ok _ =>
    let encoded := CommandStatementQuery.encode ⟨query, transactionId⟩
    let descriptor := createCommandDescriptor "CommandStatementQuery" encoded
    (.ok (t.getFlightInfo descriptor), [TransportCall.getFlightInfo descriptor])

/-- client.ts `FlightSqlClient.executePreparedQuery`. -/
def FlightSqlClient.executePreparedQuery (t : Transport) (handle : List Nat) :
    Except FlightSqlError FlightInfo × List TransportCall :=
  match validateHandle handle "prepared statement handle" with
  | .error e => (.error e, [])
  | .ok _ =>
    let encoded := CommandPreparedStatementQuery.encode ⟨handle⟩
    let descriptor := createCommandDescriptor "CommandPreparedStatementQuery" encoded
    (.ok (t.getFlightInfo descriptor), [TransportCall.getFlightInfo descriptor])

/-- client.ts `FlightSqlClient.executeUpdate`: validate, write one
descriptor-bearing message on a `doPut` stream, collect the responses, and
decode the record count from the first item's app metadata; missing item or
empty metadata raise the fixed result errors. -/
def FlightSqlClient.executeUpdate (t : Transport) (query : String)
    (transactionId : Option (List Nat)) :
    Except FlightSqlError UpdateResult × List TransportCall :=
  match validateQuery query with
  | .error e => (.error e, [])
  | .ok _ =>
    let encoded := CommandStatementUpdate.encode ⟨query, transactionId⟩
    let descriptor := createCommandDescriptor "CommandStatementUpdate" encoded
    let msg : FlightData := ⟨some ⟨2, [], descriptor.cmd⟩, [], [], []⟩
    let results := t.doPut msg
    match results.head? with
    | none =>
      (.error ⟨"no result returned from update", .RESULT_ERROR, "INTERNAL"⟩,
        [TransportCall.doPut msg])
    | some firstResult =>
      if firstResult.appMetadata.length = 0 then
        (.error ⟨"update result missing app metadata", .RESULT_ERROR, "INTERNAL"⟩,
          [TransportCall.doPut msg])
      else
        (.ok ⟨(DoPutUpdateResult.decode firstResult.appMetadata).recordCount⟩,
          [TransportCall.doPut msg])

/-- client.ts `FlightSqlClient.executePreparedUpdate`: as `executeUpdate` but
keyed by a prepared-statement handle, with its own error messages. -/
def FlightSqlClient.executePreparedUpdate (t : Transport) (handle : List Nat) :
    Except FlightSqlError UpdateResult × List TransportCall :=
  match validateHandle handle "prepared statement handle" with
  | .error e => (.error e, [])
  | .ok _ =>
    let encoded := CommandPreparedStatementUpdate.encode ⟨handle⟩
    let descriptor := createCommandDescriptor "CommandPreparedStatementUpdate" encoded
    let msg : FlightData := ⟨some ⟨2, [], descriptor.cmd⟩, [], [], []⟩
    let results := t.doPut msg
    match results.head? with
    | none =>
      (.error ⟨"no result returned from prepared update", .RESULT_ERROR, "INTERNAL"⟩,
        [TransportCall.doPut msg])
    | some firstResult =>
      if firstResult.appMetadata.length = 0 then
        (.error ⟨"prepared update result missing app metadata", .RESULT_ERROR, "INTERNAL"⟩,
          [TransportCall.doPut msg])
      else
        (.ok ⟨(DoPutUpdateResult.decode firstResult.appMetadata).recordCount⟩,
          [TransportCall.doPut msg])

/-- client.ts `FlightSqlClient.createPreparedStatement`: validate, pack the
request into the action body, take the first action result, and decode the
unpacked envelope payload. -/
def FlightSqlClient.createPreparedStatement (t : Transport) (query : String)
    (transactionId : Option (List Nat)) :
    Except FlightSqlError PreparedStatementResult × List TransportCall :=
  match validateQuery query with
  | .error e => (.error e, [])
  | .ok _ =>
    let encoded := ActionCreatePreparedStatementRequest.encode ⟨query, transactionId⟩
    let body := packAny (strBytes ( TYPE_URL_PREFIX ++ ".ActionCreatePreparedStatementRequest"))
      encoded
    let action : FlightAction := ⟨ACTION_CREATE_PREPARED_STATEMENT, body⟩
    let resultBody := (t.doAction action).head?.map ActionResult.body
    let calls := [TransportCall.doAction action]
    match resultBody with
    | none =>
      (.error ⟨"no result returned from create prepared statement", .RESULT_ERROR,
        "INTERNAL"⟩, calls)
    | some rb =>
      if rb.length = 0 then
        (.error ⟨"no result returned from create prepared statement", .RESULT_ERROR,
          "INTERNAL"⟩, calls)
      else
        let valueBytes := unpackAny rb
        let preparedResult := ActionCreatePreparedStatementResult.decode valueBytes
        (.ok ⟨preparedResult.preparedStatementHandle, preparedResult.datasetSchema,
          preparedResult.parameterSchema⟩, calls)

/-- client.ts `FlightSqlClient.closePreparedStatement`: validate, invoke the
close action and drain its results. -/
def FlightSqlClient.closePreparedStatement (_t : Transport) (handle : List Nat) :
    Except FlightSqlError Unit × List TransportCall :=
  match validateHandle handle "prepared statement handle" with
  | .error e => (.error e, [])
  | .ok _ =>
    let encoded := ActionClosePreparedStatementRequest.encode ⟨handle⟩
    let body := packAny (strBytes ( TYPE_URL_PREFIX ++ ".ActionClosePreparedStatementRequest"))
      encoded
    let action : FlightAction := ⟨ACTION_CLOSE_PREPARED_STATEMENT, body⟩
    (.ok (), [TransportCall.doAction action])

/-- client.ts `FlightSqlClient.bindParameters`: validate handle and parameter
data, write the descriptor with the parameter schema and data on a `doPut`
stream, and decode the optional updated handle; a missing item, empty
metadata, or empty unpacked payload yield the empty result, never an error.
A present `Uint8Array` handle is truthy in JavaScript even when zero-length,
so `some bytes` maps to `some bytes` and only `none` (undefined) maps to
`none`. -/
def FlightSqlClient.bindParameters (t : Transport) (handle : List Nat)
    (parameters : ParameterData) :
    Except FlightSqlError BindParametersResult × List TransportCall :=
  match validateHandle handle "prepared statement handle" with
  | .error e => (.error e, [])
  | .ok _ =>
  match validateParameterData parameters with
  | .error e => (.error e, [])
  | .ok _ =>
    let encoded := CommandPreparedStatementQuery.encode ⟨handle⟩
    let descriptor := createCommandDescriptor "CommandPreparedStatementQuery" encoded
    let msg : FlightData := ⟨some ⟨2, [], descriptor.cmd⟩, parameters.schema, [],
      parameters.data⟩
    let results := t.doPut msg
    let calls := [TransportCall.doPut msg]
    match results.head? with
    | none => (.ok ⟨none⟩, calls)
    | some firstResult =>
      if firstResult.appMetadata.length = 0 then (.ok ⟨none⟩, calls)
      else
        let anyBytes := unpackAny firstResult.appMetadata
        if anyBytes.length = 0 then (.ok ⟨none⟩, calls)
        else
          let bindResult := DoPutPreparedStatementResult.decode anyBytes
          match bindResult.preparedStatementHandle with
          | some bytes => (.ok ⟨some bytes⟩, calls)
          | none => (.ok ⟨none⟩, calls)

/-- client.ts `FlightSqlClient.endTransaction`: validate the transaction id,
encode the `ActionEndTransactionRequest` with commit = 1 / rollback = 2, pack
it into the end-transaction action and drain the action's results. -/
def FlightSqlClient.endTransaction (_t : Transport) (transactionId : List Nat)
    (action : TransactionAction) :
    Except FlightSqlError Unit × List TransportCall :=
  match validateTransactionId transactionId with
  | .error e => (.error e, [])
  | .ok _ =>
    let endAction : Nat :=
      match action with
      | .commit => 1
      | .rollback => 2
    let request : ActionEndTransactionRequest := ⟨transactionId, endAction⟩
    let encoded := ActionEndTransactionRequest.encode request
    let body := packAny (strBytes ( TYPE_URL_PREFIX ++ ".ActionEndTransactionRequest")) encoded
    let flightAction : FlightAction := ⟨ACTION_END_TRANSACTION, body⟩
    (.ok (), [TransportCall.doAction flightAction])

/-- client.ts `FlightSqlClient.commit`: delegates to `endTransaction` with the
commit action. -/
def FlightSqlClient.commit (t : Transport) (transactionId : List Nat) :
    Except FlightSqlError Unit × List TransportCall :=
  FlightSqlClient.endTransaction t transactionId TransactionAction.commit

/-- client.ts `FlightSqlClient.rollback`: delegates to `endTransaction` with
the rollback action. -/
def FlightSqlClient.rollback (t : Transport) (transactionId : List Nat) :
    Except FlightSqlError Unit × List TransportCall :=
  FlightSqlClient.endTransaction t transactionId TransactionAction.rollback

/-! ## Result materialisation (results.ts) -/

/-- Modelled from the spec: the external columnar decoder (`tableFromIPC`);
the table is represented by the exact concatenated IPC bytes handed to it. -/
structure ArrowTable where
  ipc : List Nat
deriving Repr, DecidableEq

/-- Modelled from the spec: `tableFromIPC` of the external columnar library. -/
def tableFromIPC (combined : List Nat) : ArrowTable := ⟨combined⟩

/-- results.ts `collectFlightData`: from each yielded record push the header
bytes when non-empty, then the body bytes when non-empty. -/
def collectFlightData : List FlightData → List (List Nat)
  | [] => []
  | d :: rest =>
    (if d.dataHeader.length > 0 then [d.dataHeader] else []) ++
      (if d.dataBody.length > 0 then [d.dataBody] else []) ++ collectFlightData rest

/-- The endpoint loop of results.ts `flightInfoToTable`: skip endpoints
without a ticket, read each ticket's stream and collect its chunks. -/
def gatherChunks (t : Transport) : List Endpoint → List (List Nat)
  | [] => []
  | e :: rest =>
    (match e.ticket with
     | none => []
     | some tk => collectFlightData (t.doGet tk)) ++ gatherChunks t rest

/-- results.ts `flightInfoToTable`: gather all chunks across endpoints; if
none were collected raise "no data returned from query", else hand the
concatenation to the columnar decoder. -/
def flightInfoToTable (t : Transport) (info : FlightInfo) :
    Except FlightSqlError ArrowTable :=
  let allChunks := gatherChunks t info.endpoint
  if allChunks.length = 0 then
    .error ⟨"no data returned from query", .RESULT_ERROR, "NOT_FOUND"⟩
  else .ok (tableFromIPC allChunks.flatten)

/-- results.ts `ticketToTable`: collect the single ticket's chunks; if none
raise "no data returned from ticket", else decode the concatenation. -/
def ticketToTable (t : Transport) (tk : Ticket) :
    Except FlightSqlError ArrowTable :=
  let chunks := collectFlightData (t.doGet tk)
  if chunks.length = 0 then
    .error ⟨"no data returned from ticket", .RESULT_ERROR, "NOT_FOUND"⟩
  else .ok (tableFromIPC chunks.flatten)

/-! ## Varint codec lemmas -/

/-- `value >>>= 7` strictly decreases a value with the continuation bit set. -/
theorem shiftRight7_lt (v : Nat) (h : 0x80 ≤ v) : v >>> 7 < v := by
  simp only [Nat.shiftRight_eq_div_pow]
  exact Nat.div_lt_self (by omega) (by norm_num)

/-- `writeVarInt` advances the offset by exactly `varIntSize` bytes. -/
theorem writeVarIntBytes_length (v : Nat) : (writeVarIntBytes v).length = varIntSize v := by
  induction v using Nat.strong_induction_on with
  | _ v ih =>
    by_cases hv : 0x80 ≤ v
    · rw [writeVarIntBytes, varIntSize, dif_pos hv, dif_pos hv, List.length_cons,
        ih _ (shiftRight7_lt v hv)]
    · rw [writeVarIntBytes, varIntSize, dif_neg hv, dif_neg hv, List.length_singleton]

/-- `ToUint32` is the identity on naturals below `2^32`. -/
theorem toUint32_natCast (n : Nat) (h : n < 2 ^ 32) : toUint32 (n : Int) = n := by
  have h32 : ((2 : Int) ^ 32) = 4294967296 := by norm_num
  unfold toUint32
  rw [h32]
  omega

/-- `ToInt32` is the identity on naturals below `2^31`. -/
theorem toInt32_natCast (n : Nat) (h : n < 2 ^ 31) : toInt32 (n : Int) = (n : Int) := by
  unfold toInt32
  rw [toUint32_natCast n (lt_trans h (by norm_num)), if_pos h]

/-- A JavaScript 32-bit left shift without overflow is multiplication. -/
theorem jsShl32_small (c s : Nat) (h : c * 2 ^ s < 2 ^ 31) :
    jsShl32 (c : Int) s = ((c * 2 ^ s : Nat) : Int) := by
  unfold jsShl32
  by_cases hc : c = 0
  · subst hc
    simp [toUint32, toInt32]
  · have hs : s < 32 := by
      by_contra hs
      have h2 : (2 : Nat) ^ 31 ≤ 2 ^ s := Nat.pow_le_pow_right (by omega) (by omega)
      have hc1 : 1 ≤ c := Nat.one_le_iff_ne_zero.mpr hc
      have := Nat.mul_le_mul hc1 h2
      omega
    have hcsmall : c < 2 ^ 32 := by
      have h1 : c ≤ c * 2 ^ s := Nat.le_mul_of_pos_right c (Nat.pos_pow_of_pos s (by omega))
      omega
    rw [toUint32_natCast c hcsmall, Nat.mod_eq_of_lt hs, Nat.shiftLeft_eq,
      toInt32_natCast _ h]

/-- A JavaScript 32-bit `or` of a low part below `2^s` and a disjoint shifted
part is addition, when the sum stays below `2^31`. -/
theorem jsOr32_disjoint (a c s : Nat) (ha : a < 2 ^ s) (h : a + c * 2 ^ s < 2 ^ 31) :
    jsOr32 (a : Int) ((c * 2 ^ s : Nat) : Int) = ((a + c * 2 ^ s : Nat) : Int) := by
  unfold jsOr32
  have key : 2 ^ s * c + a = 2 ^ s * c ||| a := Nat.mul_add_lt_is_or ha c
  have hor : a ||| c * 2 ^ s = a + c * 2 ^ s := by
    rw [Nat.or_comm a (c * 2 ^ s), Nat.mul_comm c (2 ^ s), ← key]
    ring
  rw [toUint32_natCast a (by omega), toUint32_natCast (c * 2 ^ s) (by omega), hor]
  exact toInt32_natCast _ h

/-- Unfolding `varIntSize` for a value with the continuation bit set. -/
theorem varIntSize_high (v : Nat) (h : 0x80 ≤ v) :
    varIntSize v = varIntSize (v >>> 7) + 1 := by
  conv_lhs => rw [varIntSize]
  exact dif_pos h

/-- Unfolding `varIntSize` for a final byte. -/
theorem varIntSize_low (v : Nat) (h : v < 0x80) : varIntSize v = 1 := by
  conv_lhs => rw [varIntSize]
  exact dif_neg (by omega)

/-- Unfolding `writeVarIntBytes` for a value with the continuation bit set. -/
theorem writeVarIntBytes_high (v : Nat) (h : 0x80 ≤ v) :
    writeVarIntBytes v = ((v &&& 0x7f) ||| 0x80) :: writeVarIntBytes (v >>> 7) := by
  conv_lhs => rw [writeVarIntBytes]
  exact dif_pos h

/-- Unfolding `writeVarIntBytes` for a final byte. -/
theorem writeVarIntBytes_low (v : Nat) (h : v < 0x80) : writeVarIntBytes v = [v] := by
  conv_lhs => rw [writeVarIntBytes]
  exact dif_neg (by omega)

/-- A value below `0x80` has the continuation bit clear. -/
theorem and_cont_bit_clear (v : Nat) (h : v < 0x80) : v &&& 0x80 = 0 := by
  have ht : v.testBit 7 = false := Nat.testBit_lt_two_pow (by omega)
  rw [show (0x80 : Nat) = 2 ^ 7 by norm_num, Nat.and_two_pow, ht]
  rfl

/-- Low seven bits are the value modulo `0x80`. -/
theorem and_low7 (v : Nat) : v &&& 0x7f = v % 0x80 := by
  rw [show (0x7f : Nat) = 2 ^ 7 - 1 by norm_num, Nat.and_pow_two_sub_one_eq_mod]

/-- Masking a continuation byte with `0x7f` recovers the low seven bits. -/
theorem cont_byte_and7 (v : Nat) : ((v &&& 0x7f) ||| 0x80) &&& 0x7f = v &&& 0x7f := by
  rw [Nat.and_comm ((v &&& 0x7f) ||| 0x80) 0x7f, Nat.and_or_distrib_left]
  have h1 : (0x7f : Nat) &&& 0x80 = 0 := by decide
  have h2 : (0x7f : Nat) &&& 0x7f = 0x7f := by decide
  rw [h1, Nat.or_zero, Nat.and_comm 0x7f (v &&& 0x7f), Nat.and_assoc, h2]

/-- A continuation byte has the continuation bit set. -/
theorem cont_byte_and80 (v : Nat) : ((v &&& 0x7f) ||| 0x80) &&& 0x80 = 0x80 := by
  rw [Nat.and_comm ((v &&& 0x7f) ||| 0x80) 0x80, Nat.and_or_distrib_left]
  have h1 : (0x80 : Nat) &&& 0x80 = 0x80 := by decide
  have h2 : (0x7f : Nat) &&& 0x80 = 0 := by decide
  rw [h1, Nat.and_comm 0x80 (v &&& 0x7f), Nat.and_assoc, h2, Nat.and_zero, Nat.zero_or]

/-- Reading back a written varint: starting at shift `s` with an accumulated
value `a < 2^s`, the reader consumes exactly the written bytes and produces
`a + v * 2^s`, provided the total stays below `2^31` (no 32-bit sign wrap). -/
theorem readVarIntAux_write (v : Nat) : ∀ (rest : List Nat) (s a n : Nat),
    a < 2 ^ s → a + v * 2 ^ s < 2 ^ 31 →
    readVarIntAux (writeVarIntBytes v ++ rest) s ((a : Nat) : Int) n =
      ⟨((a + v * 2 ^ s : Nat) : Int), n + varIntSize v⟩ := by
  induction v using Nat.strong_induction_on with
  | _ v ih =>
    intro rest s a n ha hsum
    by_cases hv : 0x80 ≤ v
    · rw [writeVarIntBytes, dif_pos hv, List.cons_append]
      simp only [readVarIntAux]
      rw [cont_byte_and80 v, if_neg (by norm_num : ¬(0x80 : Nat) = 0), cont_byte_and7 v,
        and_low7 v]
      have hmle : v % 0x80 * 2 ^ s ≤ v * 2 ^ s :=
        Nat.mul_le_mul_right _ (Nat.mod_le v 0x80)
      rw [jsShl32_small (v % 0x80) s (by omega),
        jsOr32_disjoint a (v % 0x80) s ha (by omega)]
      have hlt := shiftRight7_lt v hv
      have hdiv : v >>> 7 = v / 0x80 := by rw [Nat.shiftRight_eq_div_pow]
      have hp : (2 : Nat) ^ (s + 7) = 2 ^ s * 0x80 := by rw [Nat.pow_add]
      have ha' : a + v % 0x80 * 2 ^ s < 2 ^ (s + 7) := by
        have h1 : v % 0x80 * 2 ^ s ≤ 0x7f * 2 ^ s :=
          Nat.mul_le_mul_right _ (by omega)
        rw [hp]
        omega
      have hdm := Nat.div_add_mod v 0x80
      have hsum2 : a + v % 0x80 * 2 ^ s + v >>> 7 * 2 ^ (s + 7) = a + v * 2 ^ s := by
        have hr : a + v % 0x80 * 2 ^ s + v / 0x80 * (2 ^ s * 0x80) =
            a + (0x80 * (v / 0x80) + v % 0x80) * 2 ^ s := by ring
        rw [hdiv, hp, hr, hdm]
      rw [ih (v >>> 7) hlt rest (s + 7) (a + v % 0x80 * 2 ^ s) (n + 1) ha'
        (by rw [hsum2]; exact hsum)]
      rw [hsum2, varIntSize_high v hv]
      congr 1
      omega
    · rw [writeVarIntBytes, dif_neg hv, List.singleton_append]
      simp only [readVarIntAux]
      have h7 : v &&& 0x7f = v := by rw [and_low7]; omega
      rw [h7, if_pos (and_cont_bit_clear v (by omega))]
      have hvs : v * 2 ^ s < 2 ^ 31 := by omega
      rw [jsShl32_small v s hvs, jsOr32_disjoint a v s ha hsum,
        varIntSize_low v (by omega)]

/-! ## Envelope codec lemmas -/

/-- The scan loop returns the accumulator at the end of the buffer. -/
theorem unpackAnyAux_nil (fuel : Nat) (acc : List Nat) : unpackAnyAux fuel [] acc = acc := by
  cases fuel <;> rfl

/-- One scan step over a well-formed length-delimited field `f` (tag byte
`f*8 + 2`, then the length varint, then the content): the scan consumes the
field entirely, capturing its content exactly when `f = 2`. -/
theorem unpackAnyAux_step (fuel f : Nat) (content rest acc : List Nat)
    (hlen : content.length < 2 ^ 31) :
    unpackAnyAux (fuel + 1)
        ((f * 8 + 2) :: (writeVarIntBytes content.length ++ (content ++ rest))) acc =
      unpackAnyAux fuel rest (if f = 2 then content else acc) := by
  have hwt : (f * 8 + 2) &&& 0x07 = 2 := by
    rw [show (0x07 : Nat) = 2 ^ 3 - 1 by norm_num, Nat.and_pow_two_sub_one_eq_mod]
    omega
  have hfn : (f * 8 + 2) >>> 3 = f := by
    rw [Nat.shiftRight_eq_div_pow]
    omega
  have hr : readVarInt (writeVarIntBytes content.length ++ (content ++ rest)) 0 =
      ⟨(content.length : Int), varIntSize content.length⟩ := by
    rw [readVarInt, List.drop_zero]
    have := readVarIntAux_write content.length (content ++ rest) 0 0 0 (by norm_num)
      (by simpa using hlen)
    simpa using this
  simp only [unpackAnyAux, hwt, hfn, hr]
  rw [if_neg (by omega : ¬(2 : Nat) ≠ 2)]
  have hdrop : (writeVarIntBytes content.length ++ (content ++ rest)).drop
      (varIntSize content.length) = content ++ rest := by
    rw [← writeVarIntBytes_length, List.drop_left]
  simp only [hdrop, Int.toNat_natCast, List.take_left, List.drop_left]

/-! ## Claims C1, C2, C3: codec round trips -/

/-- Core round-trip fact about the envelope codec, shared by several
developments below. -/
theorem unpackAny_packAny_eq (typeUrl payload : List Nat)
    (h1 : typeUrl.length < 2 ^ 31) (h2 : payload.length < 2 ^ 31) :
    unpackAny (packAny typeUrl payload) = payload := by
  have hb : packAny typeUrl payload =
      (1 * 8 + 2) :: (writeVarIntBytes typeUrl.length ++ (typeUrl ++
        ((2 * 8 + 2) :: (writeVarIntBytes payload.length ++ (payload ++ []))))) := by
    simp [packAny]
  have hlen : (packAny typeUrl payload).length =
      ((writeVarIntBytes typeUrl.length).length + typeUrl.length +
        (writeVarIntBytes payload.length).length + payload.length + 1) + 1 := by
    simp [packAny]
    omega
  rw [unpackAny, hlen, hb, unpackAnyAux_step _ 1 typeUrl _ _ h1,
    unpackAnyAux_step _ 2 payload _ _ h2, unpackAnyAux_nil]
  simp

/-- C1: for every type identifier (as UTF-8 bytes) and every byte payload,
including the zero-length payload, `unpackAny (packAny typeUrl payload)`
returns exactly the original payload.  The length bounds are the 32-bit
machine-width side condition of the hand-rolled varint reader. -/
theorem envelope_pack_unpack_roundtrip (typeUrl payload : List Nat)
    (h1 : typeUrl.length < 2 ^ 31) (h2 : payload.length < 2 ^ 31) :
    unpackAny (packAny typeUrl payload) = payload :=
  unpackAny_packAny_eq typeUrl payload h1 h2

/-- Witness for C1 at a concrete type identifier and payload. -/
theorem envelope_pack_unpack_roundtrip_witness :
    ([97] : List Nat).length < 2 ^ 31 ∧ ([1, 2, 3] : List Nat).length < 2 ^ 31 ∧
      unpackAny (packAny [97] [1, 2, 3]) = [1, 2, 3] :=
  ⟨by decide, by decide, envelope_pack_unpack_roundtrip [97] [1, 2, 3] (by decide) (by decide)⟩

/-- C2 (amended): the varint round trip `readVarInt (writeVarInt v) 0 =
{value := v, bytesRead := varIntSize v}` holds for every `v` in
`[0, 2^31 - 1]`; for `v ≥ 2^31` the reader's signed 32-bit accumulation
wraps (see the counterexample at `2^31`). -/
theorem varint_write_read_roundtrip (v : Nat) (hv : v < 2 ^ 31) :
    readVarInt (writeVarIntBytes v) 0 = ⟨(v : Int), varIntSize v⟩ := by
  rw [readVarInt, List.drop_zero]
  have h := readVarIntAux_write v [] 0 0 0 (by norm_num) (by simpa using hv)
  simpa using h

/-- Witness for the amended C2 at `v = 300`. -/
theorem varint_write_read_roundtrip_witness : (300 : Nat) < 2 ^ 31 ∧
    readVarInt (writeVarIntBytes 300) 0 = ⟨((300 : Nat) : Int), varIntSize 300⟩ :=
  ⟨by decide, varint_write_read_roundtrip 300 (by decide)⟩

set_option maxRecDepth 4096 in
/-- Counterexample to C2 as stated: at `v = 2^31 = 2147483648` (inside the
claimed range `[0, 2^32 - 1]`), the JavaScript 32-bit signed accumulation
`value |= byte << 28` overflows, and the reader returns `-2^31`, not `2^31`. -/
theorem varint_roundtrip_fails_at_two_pow_31 :
    readVarInt (writeVarIntBytes 2147483648) 0 ≠
      ⟨((2147483648 : Nat) : Int), varIntSize 2147483648⟩ ∧
    readVarInt (writeVarIntBytes 2147483648) 0 = ⟨-2147483648, 5⟩ := by
  have hw : writeVarIntBytes 2147483648 = [0x80, 0x80, 0x80, 0x80, 0x08] := by
    rw [writeVarIntBytes_high _ (by decide), writeVarIntBytes_high _ (by decide),
      writeVarIntBytes_high _ (by decide), writeVarIntBytes_high _ (by decide),
      writeVarIntBytes_low _ (by decide)]
    decide
  have hs : varIntSize 2147483648 = 5 := by
    rw [varIntSize_high _ (by decide), varIntSize_high _ (by decide),
      varIntSize_high _ (by decide), varIntSize_high _ (by decide),
      varIntSize_low _ (by decide)]
  rw [hw, hs]
  constructor
  · decide
  · decide

/-- C3 (amended): inserting an extra well-formed *length-delimited* field
(single-byte tag `f*8 + 2`, field number `f ≠ 2`, then its length varint and
content) into a `packAny` envelope, either between field 1 and field 2 or
after field 2, does not change the payload that `unpackAny` returns.  An
extra field of a *non-length-delimited* wire type is not skipped by its
width (only the tag byte is consumed) and can corrupt the scan; see the
counterexample. -/
theorem unknown_field_tolerance (typeUrl payload extra : List Nat) (f : Nat)
    (h1 : typeUrl.length < 2 ^ 31) (h2 : payload.length < 2 ^ 31)
    (h3 : extra.length < 2 ^ 31) (hf2 : f ≠ 2) (_hf32 : f < 32) :
    unpackAny ((0x0a :: writeVarIntBytes typeUrl.length) ++ typeUrl ++
        ((f * 8 + 2) :: writeVarIntBytes extra.length) ++ extra ++
        ((0x12 :: writeVarIntBytes payload.length) ++ payload)) = payload ∧
    unpackAny (packAny typeUrl payload ++
        ((f * 8 + 2) :: writeVarIntBytes extra.length) ++ extra) = payload ∧
    unpackAny (packAny typeUrl payload) = payload := by
  refine ⟨?_, ?_, unpackAny_packAny_eq typeUrl payload h1 h2⟩
  · have hA : (0x0a :: writeVarIntBytes typeUrl.length) ++ typeUrl ++
        ((f * 8 + 2) :: writeVarIntBytes extra.length) ++ extra ++
        ((0x12 :: writeVarIntBytes payload.length) ++ payload) =
        (1 * 8 + 2) :: (writeVarIntBytes typeUrl.length ++ (typeUrl ++
          ((f * 8 + 2) :: (writeVarIntBytes extra.length ++ (extra ++
            ((2 * 8 + 2) :: (writeVarIntBytes payload.length ++ (payload ++ [])))))))) := by
      simp [List.append_assoc]
    have hlA : ((0x0a :: writeVarIntBytes typeUrl.length) ++ typeUrl ++
        ((f * 8 + 2) :: writeVarIntBytes extra.length) ++ extra ++
        ((0x12 :: writeVarIntBytes payload.length) ++ payload)).length =
        (((writeVarIntBytes typeUrl.length).length + typeUrl.length +
          (writeVarIntBytes extra.length).length + extra.length +
          (writeVarIntBytes payload.length).length + payload.length + 1) + 1) + 1 := by
      simp
      omega
    rw [unpackAny, hlA, hA, unpackAnyAux_step _ 1 typeUrl _ _ h1,
      unpackAnyAux_step _ f extra _ _ h3, unpackAnyAux_step _ 2 payload _ _ h2,
      unpackAnyAux_nil]
    simp
  · have hB : packAny typeUrl payload ++
        ((f * 8 + 2) :: writeVarIntBytes extra.length) ++ extra =
        (1 * 8 + 2) :: (writeVarIntBytes typeUrl.length ++ (typeUrl ++
          ((2 * 8 + 2) :: (writeVarIntBytes payload.length ++ (payload ++
            ((f * 8 + 2) :: (writeVarIntBytes extra.length ++ (extra ++ [])))))))) := by
      simp [packAny, List.append_assoc]
    have hlB : (packAny typeUrl payload ++
        ((f * 8 + 2) :: writeVarIntBytes extra.length) ++ extra).length =
        (((writeVarIntBytes typeUrl.length).length + typeUrl.length +
          (writeVarIntBytes extra.length).length + extra.length +
          (writeVarIntBytes payload.length).length + payload.length + 1) + 1) + 1 := by
      simp [packAny]
      omega
    rw [unpackAny, hlB, hB, unpackAnyAux_step _ 1 typeUrl _ _ h1,
      unpackAnyAux_step _ 2 payload _ _ h2, unpackAnyAux_step _ f extra _ _ h3,
      unpackAnyAux_nil]
    simp [hf2]

/-- Witness for the amended C3: field number 3, inserted in both positions. -/
theorem unknown_field_tolerance_witness :
    (3 : Nat) ≠ 2 ∧ (3 : Nat) < 32 ∧
      unpackAny ((0x0a :: writeVarIntBytes ([97] : List Nat).length) ++ [97] ++
        ((3 * 8 + 2) :: writeVarIntBytes ([9] : List Nat).length) ++ [9] ++
        ((0x12 :: writeVarIntBytes ([5, 6] : List Nat).length) ++ [5, 6])) = [5, 6] ∧
      unpackAny (packAny [97] [5, 6] ++
        ((3 * 8 + 2) :: writeVarIntBytes ([9] : List Nat).length) ++ [9]) = [5, 6] :=
  ⟨by decide, by decide,
    (unknown_field_tolerance [97] [5, 6] [9] 3 (by decide) (by decide) (by decide)
      (by decide) (by decide)).1,
    (unknown_field_tolerance [97] [5, 6] [9] 3 (by decide) (by decide) (by decide)
      (by decide) (by decide)).2.1⟩

/-- Counterexample to C3 as stated: appending an extra varint field
(tag `0x08` = field 1, wire type 0, one value byte `0x12`) after field 2 makes
`unpackAny` return the empty payload instead of the original `[1]` — the
skipped tag's value byte `0x12` is misread as a field-2 tag at the end of the
buffer. -/
theorem unknown_field_corrupts_scan :
    unpackAny (packAny [97] [1] ++ [0x08, 0x12]) ≠ unpackAny (packAny [97] [1]) ∧
    unpackAny (packAny [97] [1] ++ [0x08, 0x12]) = [] ∧
    unpackAny (packAny [97] [1]) = [1] := by
  have hw1 : writeVarIntBytes 1 = [1] := writeVarIntBytes_low 1 (by decide)
  have hp : packAny [97] [1] = [0x0a, 1, 97, 0x12, 1, 1] := by
    simp [packAny, hw1]
  refine ⟨?_, ?_, ?_⟩ <;> rw [hp] <;> decide

/-! ## Claims C9, C10: descriptor builder and transaction delegation -/

/-- C9: the descriptor builder is a pure function whose output wraps, in the
transport's command (not path) addressing mode, the envelope
`packAny(typeUrl, encodedMessage)` where `typeUrl` is exactly the fixed
prefix `type.googleapis.com/arrow.flight.protocol.sql` followed by `.` and
the logical message type name. -/
theorem command_descriptor_builds_envelope (typeName : String) (encodedMessage : List Nat) :
    createCommandDescriptor typeName encodedMessage =
      ⟨DescriptorMode.cmd,
        packAny
          (strBytes ("type.googleapis.com/arrow.flight.protocol.sql" ++ "." ++ typeName))
          encodedMessage⟩ :=
  rfl

/-- C10: `commit` and `rollback` are observably identical to `endTransaction`
with the commit and rollback action respectively — same validation, same
action body, same errors, same result and same transport calls, for every
transport and transaction id. -/
theorem commit_rollback_delegate_to_endTransaction (t : Transport)
    (transactionId : List Nat) :
    FlightSqlClient.commit t transactionId =
        FlightSqlClient.endTransaction t transactionId TransactionAction.commit ∧
      FlightSqlClient.rollback t transactionId =
        FlightSqlClient.endTransaction t transactionId TransactionAction.rollback :=
  ⟨rfl, rfl⟩

/-! ## Claim C4: validation before any transport call -/

/-- C4: every facade operation validates before any transport call.  A blank
query makes `query`, `executeUpdate` and `createPreparedStatement` return the
`"query cannot be empty"` validation error with an empty transport-call
trace; `query "SELECT 1"` never returns an error; zero-length
prepared-statement handles, transaction ids, parameter schema and parameter
data likewise fail with their validation errors and an empty trace. -/
theorem validation_before_transport (t : Transport) (q : String)
    (hq : q = "" ∨ (jsTrim q).length = 0) (txn : Option (List Nat))
    (a : TransactionAction) (p : ParameterData) (handle : List Nat)
    (hh : handle ≠ []) :
    FlightSqlClient.query t q txn =
        (.error ⟨"query cannot be empty", .INVALID_QUERY, "INVALID_ARGUMENT"⟩, []) ∧
    FlightSqlClient.executeUpdate t q txn =
        (.error ⟨"query cannot be empty", .INVALID_QUERY, "INVALID_ARGUMENT"⟩, []) ∧
    FlightSqlClient.createPreparedStatement t q txn =
        (.error ⟨"query cannot be empty", .INVALID_QUERY, "INVALID_ARGUMENT"⟩, []) ∧
    (∀ e, (FlightSqlClient.query t "SELECT 1" txn).1 ≠ .error e) ∧
    FlightSqlClient.executePreparedQuery t [] =
        (.error ⟨"prepared statement handle cannot be empty", .INVALID_HANDLE,
          "INVALID_ARGUMENT"⟩, []) ∧
    FlightSqlClient.executePreparedUpdate t [] =
        (.error ⟨"prepared statement handle cannot be empty", .INVALID_HANDLE,
          "INVALID_ARGUMENT"⟩, []) ∧
    FlightSqlClient.closePreparedStatement t [] =
        (.error ⟨"prepared statement handle cannot be empty", .INVALID_HANDLE,
          "INVALID_ARGUMENT"⟩, []) ∧
    FlightSqlClient.bindParameters t [] p =
        (.error ⟨"prepared statement handle cannot be empty", .INVALID_HANDLE,
          "INVALID_ARGUMENT"⟩, []) ∧
    FlightSqlClient.endTransaction t [] a =
        (.error ⟨"transaction ID cannot be empty", .TRANSACTION_ERROR,
          "FAILED_PRECONDITION"⟩, []) ∧
    (∀ p2 : ParameterData, p2.schema = [] →
      FlightSqlClient.bindParameters t handle p2 =
        (.error ⟨"parameter schema is required", .INVALID_PARAMETER,
          "INVALID_ARGUMENT"⟩, [])) ∧
    (∀ p2 : ParameterData, p2.schema ≠ [] → p2.data = [] →
      FlightSqlClient.bindParameters t handle p2 =
        (.error ⟨"parameter data is required", .INVALID_PARAMETER,
          "INVALID_ARGUMENT"⟩, [])) := by
  have hvq : validateQuery q =
      .error ⟨"query cannot be empty", .INVALID_QUERY, "INVALID_ARGUMENT"⟩ := by
    rw [validateQuery, if_pos hq]
  have hsel : validateQuery "SELECT 1" = .ok () := by
    rw [validateQuery, if_neg (by decide)]
  have hvh : validateHandle [] "prepared statement handle" =
      .error ⟨"prepared statement handle cannot be empty", .INVALID_HANDLE,
        "INVALID_ARGUMENT"⟩ := by
    simp [validateHandle]
  have hvhok : validateHandle handle "prepared statement handle" = .ok () := by
    rw [validateHandle, if_neg (by simpa [List.length_eq_zero] using hh)]
  have hvt : validateTransactionId [] =
      .error ⟨"transaction ID cannot be empty", .TRANSACTION_ERROR,
        "FAILED_PRECONDITION"⟩ := by
    simp [validateTransactionId]
  refine ⟨?_, ?_, ?_, ?_, ?_, ?_, ?_, ?_, ?_, ?_, ?_⟩
  · simp only [FlightSqlClient.query, hvq]
  · simp only [FlightSqlClient.executeUpdate, hvq]
  · simp only [FlightSqlClient.createPreparedStatement, hvq]
  · intro e
    simp only [FlightSqlClient.query, hsel]
    simp
  · simp only [FlightSqlClient.executePreparedQuery, hvh]
  · simp only [FlightSqlClient.executePreparedUpdate, hvh]
  · simp only [FlightSqlClient.closePreparedStatement, hvh]
  · simp only [FlightSqlClient.bindParameters, hvh]
  · simp only [FlightSqlClient.endTransaction, hvt]
  · intro p2 hs
    have hvp : validateParameterData p2 =
        .error ⟨"parameter schema is required", .INVALID_PARAMETER,
          "INVALID_ARGUMENT"⟩ := by
      simp [validateParameterData, hs]
    simp only [FlightSqlClient.bindParameters, hvhok, hvp]
  · intro p2 hs hd
    have hvp : validateParameterData p2 =
        .error ⟨"parameter data is required", .INVALID_PARAMETER,
          "INVALID_ARGUMENT"⟩ := by
      simp [validateParameterData, List.length_eq_zero, hs, hd]
    simp only [FlightSqlClient.bindParameters, hvhok, hvp]

/-- A sample transport for the witnesses below: every request gets an empty
response. -/
def sampleTransport : Transport :=
  ⟨fun _ => ⟨[]⟩, fun _ => [], fun _ => [], fun _ => []⟩

/-- Witness for C4 at a whitespace-only query and concrete arguments. -/
theorem validation_before_transport_witness :
    (("   " : String) = "" ∨ (jsTrim "   ").length = 0) ∧ ([1] : List Nat) ≠ [] ∧
      FlightSqlClient.query sampleTransport "   " none =
        (.error ⟨"query cannot be empty", .INVALID_QUERY, "INVALID_ARGUMENT"⟩, []) :=
  ⟨by decide, by decide,
    (validation_before_transport sampleTransport "   " (by decide) none
      TransactionAction.commit ⟨[7], [8]⟩ [1] (by decide)).1⟩

/-! ## Claim C5: executeUpdate response boundaries -/

/-- The single message `executeUpdate` writes on its `doPut` stream. -/
def executeUpdateMessage (q : String) (txn : Option (List Nat)) : FlightData :=
  ⟨some ⟨2, [],
    (createCommandDescriptor "CommandStatementUpdate"
      (CommandStatementUpdate.encode ⟨q, txn⟩)).cmd⟩, [], [], []⟩

/-- C5: with a valid query, `executeUpdate` raises
`"no result returned from update"` when the write stream returns zero items,
`"update result missing app metadata"` when the first item's metadata is
empty, and resolves to `{recordCount := n}` when the first item's metadata
decodes to record count `n`. -/
theorem executeUpdate_result_boundaries (t : Transport) (q : String)
    (txn : Option (List Nat)) (hq : validateQuery q = .ok ()) :
    (t.doPut (executeUpdateMessage q txn) = [] →
      FlightSqlClient.executeUpdate t q txn =
        (.error ⟨"no result returned from update", .RESULT_ERROR, "INTERNAL"⟩,
          [TransportCall.doPut (executeUpdateMessage q txn)])) ∧
    (∀ first rest, t.doPut (executeUpdateMessage q txn) = first :: rest →
      first.appMetadata = [] →
      FlightSqlClient.executeUpdate t q txn =
        (.error ⟨"update result missing app metadata", .RESULT_ERROR, "INTERNAL"⟩,
          [TransportCall.doPut (executeUpdateMessage q txn)])) ∧
    (∀ first rest n, t.doPut (executeUpdateMessage q txn) = first :: rest →
      first.appMetadata ≠ [] →
      (DoPutUpdateResult.decode first.appMetadata).recordCount = n →
      FlightSqlClient.executeUpdate t q txn =
        (.ok ⟨n⟩, [TransportCall.doPut (executeUpdateMessage q txn)])) := by
  refine ⟨?_, ?_, ?_⟩
  · intro hres
    simp only [FlightSqlClient.executeUpdate, hq, executeUpdateMessage] at hres ⊢
    simp [hres]
  · intro first rest hres hm
    simp only [FlightSqlClient.executeUpdate, hq, executeUpdateMessage] at hres ⊢
    simp [hres, hm]
  · intro first rest n hres hm hn
    simp only [FlightSqlClient.executeUpdate, hq, executeUpdateMessage] at hres ⊢
    simp [hres, List.length_eq_zero, hm, hn]

/-- A transport whose write stream responds with one item whose metadata is
the encoded `DoPutUpdateResult` with record count 42 (`0x08` = field 1
varint, value 42). -/
def updateResponseTransport : Transport :=
  ⟨fun _ => ⟨[]⟩, fun _ => [⟨[0x08, 42]⟩], fun _ => [], fun _ => []⟩

/-- Witness for C5: the full-update scenario resolving to record count 42. -/
theorem executeUpdate_result_boundaries_witness :
    validateQuery "INSERT INTO t VALUES (1)" = .ok () ∧
      FlightSqlClient.executeUpdate updateResponseTransport
        "INSERT INTO t VALUES (1)" none =
        (.ok ⟨42⟩,
          [TransportCall.doPut (executeUpdateMessage "INSERT INTO t VALUES (1)" none)]) :=
  ⟨by rw [validateQuery, if_neg (by decide)],
    (executeUpdate_result_boundaries updateResponseTransport "INSERT INTO t VALUES (1)"
      none (by rw [validateQuery, if_neg (by decide)])).2.2 ⟨[0x08, 42]⟩ [] 42 rfl
      (by decide) (by decide)⟩

/-! ## Claims C6, C7: bindParameters -/

/-- The single message `bindParameters` writes on its `doPut` stream: the
command descriptor in the header, the parameter schema as the data header and
the parameter data as the body. -/
def bindParametersMessage (handle : List Nat) (p : ParameterData) : FlightData :=
  ⟨some ⟨2, [],
    (createCommandDescriptor "CommandPreparedStatementQuery"
      (CommandPreparedStatementQuery.encode ⟨handle⟩)).cmd⟩, p.schema, [], p.data⟩

/-- C6: `bindParameters` never raises on a missing or empty response: zero
response items, a first item with zero-length metadata, or metadata whose
unpacked envelope payload is zero-length all resolve to the empty result
`{handle := none}`. -/
theorem bindParameters_leniency (t : Transport) (handle : List Nat) (p : ParameterData)
    (hh : validateHandle handle "prepared statement handle" = .ok ())
    (hp : validateParameterData p = .ok ()) :
    (t.doPut (bindParametersMessage handle p) = [] →
      FlightSqlClient.bindParameters t handle p =
        (.ok ⟨none⟩, [TransportCall.doPut (bindParametersMessage handle p)])) ∧
    (∀ first rest, t.doPut (bindParametersMessage handle p) = first :: rest →
      first.appMetadata = [] →
      FlightSqlClient.bindParameters t handle p =
        (.ok ⟨none⟩, [TransportCall.doPut (bindParametersMessage handle p)])) ∧
    (∀ first rest, t.doPut (bindParametersMessage handle p) = first :: rest →
      first.appMetadata ≠ [] → unpackAny first.appMetadata = [] →
      FlightSqlClient.bindParameters t handle p =
        (.ok ⟨none⟩, [TransportCall.doPut (bindParametersMessage handle p)])) := by
  refine ⟨?_, ?_, ?_⟩
  · intro hres
    simp only [FlightSqlClient.bindParameters, hh, hp, bindParametersMessage] at hres ⊢
    simp [hres]
  · intro first rest hres hm
    simp only [FlightSqlClient.bindParameters, hh, hp, bindParametersMessage] at hres ⊢
    simp [hres, hm]
  · intro first rest hres hm hu
    simp only [FlightSqlClient.bindParameters, hh, hp, bindParametersMessage] at hres ⊢
    simp [hres, List.length_eq_zero, hm, hu]

/-- Witness for C6: no response items at all yields the empty result. -/
theorem bindParameters_leniency_witness :
    validateHandle [1] "prepared statement handle" = .ok () ∧
      validateParameterData ⟨[2], [3]⟩ = .ok () ∧
      FlightSqlClient.bindParameters sampleTransport [1] ⟨[2], [3]⟩ =
        (.ok ⟨none⟩, [TransportCall.doPut (bindParametersMessage [1] ⟨[2], [3]⟩)]) :=
  ⟨by simp [validateHandle], by simp [validateParameterData],
    (bindParameters_leniency sampleTransport [1] ⟨[2], [3]⟩ (by simp [validateHandle])
      (by simp [validateParameterData])).1 rfl⟩

/-- C7 (amended): when the decoded bind result carries an explicitly present
but zero-length handle, `bindParameters` returns `handle = some []` — an
empty buffer, distinguishable from the absent case — because a present
`Uint8Array` is truthy in JavaScript even when empty; only an absent
(`undefined`) handle yields `handle = none`. -/
theorem bindParameters_empty_handle (t : Transport) (handle : List Nat)
    (p : ParameterData)
    (hh : validateHandle handle "prepared statement handle" = .ok ())
    (hp : validateParameterData p = .ok ())
    (first : DoPutResult) (rest : List DoPutResult)
    (hres : t.doPut (bindParametersMessage handle p) = first :: rest)
    (hm : first.appMetadata ≠ []) (hu : unpackAny first.appMetadata ≠ []) :
    (DoPutPreparedStatementResult.decode (unpackAny first.appMetadata) = ⟨some []⟩ →
      FlightSqlClient.bindParameters t handle p =
        (.ok ⟨some []⟩, [TransportCall.doPut (bindParametersMessage handle p)])) ∧
    (DoPutPreparedStatementResult.decode (unpackAny first.appMetadata) = ⟨none⟩ →
      FlightSqlClient.bindParameters t handle p =
        (.ok ⟨none⟩, [TransportCall.doPut (bindParametersMessage handle p)])) := by
  constructor <;> intro hdec <;>
    · simp only [FlightSqlClient.bindParameters, hh, hp, bindParametersMessage] at hres ⊢
      simp [hres, List.length_eq_zero, hm, hu, hdec]

/-- A transport whose write stream responds with one item whose metadata is
`packAny("u", enc)` where `enc = [0x0a, 0x00]` encodes a
`DoPutPreparedStatementResult` with an explicitly present zero-length
handle. -/
def emptyHandleResponseTransport : Transport :=
  ⟨fun _ => ⟨[]⟩, fun _ => [⟨[0x0a, 1, 117, 0x12, 2, 0x0a, 0]⟩], fun _ => [], fun _ => []⟩

/-- Counterexample to C7 as stated: the response metadata is a `packAny`
envelope whose payload `[0x0a, 0x00]` is the encoding of a result with an
explicitly present zero-length handle; `bindParameters` returns
`handle = some []` (an empty buffer), not `none` (undefined) as the claim
requires. -/
theorem bindParameters_empty_handle_counterexample :
    packAny (strBytes "u") [0x0a, 0] = [0x0a, 1, 117, 0x12, 2, 0x0a, 0] ∧
    DoPutPreparedStatementResult.decode [0x0a, 0] = ⟨some []⟩ ∧
    (FlightSqlClient.bindParameters emptyHandleResponseTransport [1] ⟨[2], [3]⟩).1 =
      .ok ⟨some []⟩ ∧
    (FlightSqlClient.bindParameters emptyHandleResponseTransport [1] ⟨[2], [3]⟩).1 ≠
      .ok ⟨none⟩ := by
  have hw1 : writeVarIntBytes 1 = [1] := writeVarIntBytes_low 1 (by decide)
  have hw2 : writeVarIntBytes 2 = [2] := writeVarIntBytes_low 2 (by decide)
  have hsu : strBytes "u" = [117] := rfl
  refine ⟨?_, by decide, ?_, ?_⟩
  · simp [packAny, hsu, hw1, hw2]
  · rfl
  · intro h
    have h2 : (.ok (⟨some []⟩ : BindParametersResult) :
        Except FlightSqlError BindParametersResult) = .ok ⟨none⟩ := by
      rw [← h]
      rfl
    simp at h2

/-- Witness for the amended C7 at the concrete explicit-empty-handle
response. -/
theorem bindParameters_empty_handle_witness :
    validateHandle [1] "prepared statement handle" = .ok () ∧
      DoPutPreparedStatementResult.decode
        (unpackAny ([0x0a, 1, 117, 0x12, 2, 0x0a, 0] : List Nat)) = ⟨some []⟩ ∧
      FlightSqlClient.bindParameters emptyHandleResponseTransport [1] ⟨[2], [3]⟩ =
        (.ok ⟨some []⟩, [TransportCall.doPut (bindParametersMessage [1] ⟨[2], [3]⟩)]) :=
  ⟨by simp [validateHandle], by decide,
    (bindParameters_empty_handle emptyHandleResponseTransport [1] ⟨[2], [3]⟩
      (by simp [validateHandle]) (by simp [validateParameterData])
      ⟨[0x0a, 1, 117, 0x12, 2, 0x0a, 0]⟩ [] rfl (by decide) (by decide)).1 (by decide)⟩

/-! ## Claim C8: empty result materialisation -/

/-- Collecting a stream whose every record has empty header and body yields
no chunks. -/
theorem collectFlightData_empty (stream : List FlightData)
    (h : ∀ d ∈ stream, d.dataHeader = [] ∧ d.dataBody = []) :
    collectFlightData stream = [] := by
  induction stream with
  | nil => rfl
  | cons d rest ih =>
    have hd := h d (List.mem_cons_self d rest)
    have ih2 := ih (fun x hx => h x (List.mem_cons_of_mem d hx))
    simp [collectFlightData, hd.1, hd.2, ih2]

/-- The endpoint traversal collects nothing when every ticketed endpoint
yields only zero-byte chunks. -/
theorem gatherChunks_empty (t : Transport) (eps : List Endpoint)
    (h : ∀ e ∈ eps, ∀ tk, e.ticket = some tk →
      ∀ d ∈ t.doGet tk, d.dataHeader = [] ∧ d.dataBody = []) :
    gatherChunks t eps = [] := by
  induction eps with
  | nil => rfl
  | cons e rest ih =>
    have ih2 := ih (fun x hx => h x (List.mem_cons_of_mem e hx))
    cases hticket : e.ticket with
    | none => simp [gatherChunks, hticket, ih2]
    | some tk =>
      have hde := h e (List.mem_cons_self e rest) tk hticket
      simp [gatherChunks, hticket, ih2, collectFlightData_empty _ hde]

/-- C8 (amended): when every ticketed endpoint of the response descriptor
yields only zero-byte chunks — in particular with zero endpoints —
`flightInfoToTable` raises the result error `"no data returned from query"`;
`ticketToTable` raises the analogous result error for a single all-empty
ticket, but with its own message `"no data returned from ticket"`. -/
theorem empty_result_materialization (t : Transport) (info : FlightInfo)
    (hall : ∀ e ∈ info.endpoint, ∀ tk, e.ticket = some tk →
      ∀ d ∈ t.doGet tk, d.dataHeader = [] ∧ d.dataBody = []) :
    flightInfoToTable t info =
        .error ⟨"no data returned from query", .RESULT_ERROR, "NOT_FOUND"⟩ ∧
      ∀ tk, (∀ d ∈ t.doGet tk, d.dataHeader = [] ∧ d.dataBody = []) →
        ticketToTable t tk =
          .error ⟨"no data returned from ticket", .RESULT_ERROR, "NOT_FOUND"⟩ := by
  constructor
  · simp [flightInfoToTable, gatherChunks_empty t info.endpoint hall]
  · intro tk htk
    simp [ticketToTable, collectFlightData_empty _ htk]

/-- Counterexample to C8 as stated: `ticketToTable` on an all-empty ticket
raises a result error whose message is `"no data returned from ticket"`, not
the message `"no data returned from query"` that `flightInfoToTable` uses —
the two errors are not the same. -/
theorem ticketToTable_error_message_differs :
    ticketToTable sampleTransport ⟨[1]⟩ =
        .error ⟨"no data returned from ticket", .RESULT_ERROR, "NOT_FOUND"⟩ ∧
      ticketToTable sampleTransport ⟨[1]⟩ ≠
        .error ⟨"no data returned from query", .RESULT_ERROR, "NOT_FOUND"⟩ := by
  have h1 : ticketToTable sampleTransport ⟨[1]⟩ =
      .error ⟨"no data returned from ticket", .RESULT_ERROR, "NOT_FOUND"⟩ := rfl
  refine ⟨h1, ?_⟩
  rw [h1]
  simp only [ne_eq, Except.error.injEq]
  decide

/-- A transport whose read streams yield exactly one zero-byte chunk. -/
def zeroChunkTransport : Transport :=
  ⟨fun _ => ⟨[]⟩, fun _ => [], fun _ => [], fun _ => [⟨none, [], [], []⟩]⟩

/-- Witness for the amended C8: one ticketed endpoint returning a zero-byte
chunk plus one ticketless endpoint, and a single all-empty ticket. -/
theorem empty_result_materialization_witness :
    flightInfoToTable zeroChunkTransport ⟨[⟨some ⟨[1]⟩⟩, ⟨none⟩]⟩ =
        .error ⟨"no data returned from query", .RESULT_ERROR, "NOT_FOUND"⟩ ∧
      ticketToTable zeroChunkTransport ⟨[1]⟩ =
        .error ⟨"no data returned from ticket", .RESULT_ERROR, "NOT_FOUND"⟩ := by
  have hall : ∀ e ∈ ([⟨some ⟨[1]⟩⟩, ⟨none⟩] : List Endpoint), ∀ tk, e.ticket = some tk →
      ∀ d ∈ zeroChunkTransport.doGet tk, d.dataHeader = [] ∧ d.dataBody = [] := by
    intro e he tk htk d hd
    simp [zeroChunkTransport] at hd
    subst hd
    exact ⟨rfl, rfl⟩
  have h := empty_result_materialization zeroChunkTransport ⟨[⟨some ⟨[1]⟩⟩, ⟨none⟩]⟩ hall
  refine ⟨h.1, h.2 ⟨[1]⟩ ?_⟩
  intro d hd
  simp [zeroChunkTransport] at hd
  subst hd
  exact ⟨rfl, rfl⟩
